import Mathlib

/-!
Verification development for the `automata-tech/fullstack-golang-interview`
repository: a shallow embedding in Lean 4 of the workflow service, the device
service (both in `src/services/workflow-service/main.go`) and the sample
service (`src/services/sample-service/main.go`), together with proofs about
the claims of the specification.

Modelling conventions, matching the Go source:
- Go `map[string]T` values (and the Redis-persisted collections, which the
  source always reads and writes whole) are modelled as association lists
  `List (String × T)` with lookup of the first matching key; map assignment
  is `putKV` (replace or append) and `delete` is `delKV`.
- Go strings stay `String`; absent optional timestamps are the empty string,
  exactly as in the source where `omitempty` fields hold `""` when unset.
- `time.Now().UTC().Format(time.RFC3339)` is modelled as an arbitrary string
  parameter `now`; where a proof needs that an RFC3339 timestamp is not the
  empty string, that fact appears as an explicit hypothesis `now ≠ ""`.
- HTTP handlers become pure functions from the relevant state plus the
  decoded request to `(statusCode, errorString, newState)`; the `error`
  string is the literal string the handler puts in its JSON error body
  (`""` on success).
- The outcome of an outbound `http.Post` is a `DeviceCallResult`: either a
  transport-level failure (`err != nil` in Go) or a response with a status
  code.  `startWorkflowComposed` additionally wires the workflow service's
  outbound call to the embedded device service through the URL string the
  source builds, routed exactly like the device service's gin routes.
- A Go runtime panic (out-of-bounds slice access) is modelled as `none` in
  an `Option` result.
-/

/-- Lookup of the first binding of a key in an association list; models Go
`m[key]` read (with `ok` as `isSome`). -/
def lookupKV {β : Type} : List (String × β) → String → Option β
  | [], _ => none
  | (k, v) :: rest, key => if k = key then some v else lookupKV rest key

/-- Map assignment `m[key] = v`: replaces the first binding of `key`, or
appends one if absent. -/
def putKV {β : Type} : List (String × β) → String → β → List (String × β)
  | [], key, v => [(key, v)]
  | (k, w) :: rest, key, v =>
    if k = key then (key, v) :: rest else (k, w) :: putKV rest key v

/-- Map deletion `delete(m, key)`: removes the first binding of `key`. -/
def delKV {β : Type} : List (String × β) → String → List (String × β)
  | [], _ => []
  | (k, w) :: rest, key => if k = key then rest else (k, w) :: delKV rest key

/-! ## Workflow service data model (`workflow-service/main.go`) -/

/-- The `WorkflowStatus` enum: `created`, `running`, `completed`, `paused`. -/
inductive WorkflowStatus : Type
  | created
  | running
  | completed
  | paused
deriving Repr, DecidableEq

abbrev StatusCreated := WorkflowStatus.created
abbrev StatusRunning := WorkflowStatus.running
abbrev StatusCompleted := WorkflowStatus.completed
abbrev StatusPaused := WorkflowStatus.paused

/-- The `Workflow` struct.  `StartedAt`/`CompletedAt` are `omitempty` strings
in Go: the empty string means the timestamp is absent. -/
structure Workflow : Type where
  ID             : String
  Name           : String
  DeviceID       : String
  SampleBarcodes : List String
  Steps          : List String
  Status         : WorkflowStatus
  CreatedAt      : String
  StartedAt      : String := ""
  CompletedAt    : String := ""
deriving Repr, DecidableEq

/-- The body of `POST /workflows` (`CreateWorkflowRequest`).  gin's
`binding:"required"` on `Name` and `DeviceID` rejects absent or empty
strings; an absent JSON string field decodes to `""`. -/
structure CreateWorkflowRequest : Type where
  Name           : String
  DeviceID       : String
  SampleBarcodes : List String
  Steps          : List String
deriving Repr, DecidableEq

/-- The whole-collection blob stored under the `workflows` Redis key. -/
abbrev Collection := List (String × Workflow)

/-- `getWorkflow`: read the collection and look the workflow up by id
(`nil` result modelled as `none`). -/
def getWorkflow (ws : Collection) (workflowID : String) : Option Workflow :=
  lookupKV ws workflowID

/-- The `updates map[string]interface{}` argument of `updateWorkflow`.  Only
the four keys the source inspects exist; `none` models an absent key (or a
value whose type assertion fails). -/
structure WfUpdate : Type where
  name         : Option String := none
  status       : Option WorkflowStatus := none
  started_at   : Option String := none
  completed_at : Option String := none
deriving Repr, DecidableEq

/-- The field-merge loop in the body of `updateWorkflow` (`main.go`
lines 128-140): each present key overwrites the corresponding field. -/
def applyUpdates (w : Workflow) (u : WfUpdate) : Workflow :=
  let w1 := match u.name with
    | some n => { w with Name := n }
    | none => w
  let w2 := match u.status with
    | some s => { w1 with Status := s }
    | none => w1
  let w3 := match u.started_at with
    | some t => { w2 with StartedAt := t }
    | none => w2
  match u.completed_at with
  | some t => { w3 with CompletedAt := t }
  | none => w3

/-- `updateWorkflow`: read-modify-write of one record inside the collection
blob.  Returns the merged record (or `none` when the id is absent) and the
collection as persisted afterwards. -/
def updateWorkflow (ws : Collection) (workflowID : String) (u : WfUpdate) :
    Option Workflow × Collection :=
  match getWorkflow ws workflowID with
  | none => (none, ws)
  | some w =>
    let w2 := applyUpdates w u
    (some w2, putKV ws workflowID w2)

/-- `createWorkflowHandler`: validates the request, builds the record with
`Status = created` and no start/completion timestamps, and upserts it.
`workflowID` stands for the `uuid.New().String()` value; `now` for
`time.Now().UTC().Format(time.RFC3339)`.  Result: status code, response
body record (`none` on error), persisted collection. -/
def createWorkflowHandler (ws : Collection) (workflowID : String)
    (req : CreateWorkflowRequest) (now : String) :
    Nat × Option Workflow × Collection :=
  if req.Name = "" ∨ req.DeviceID = "" then (400, none, ws)
  else
    let w : Workflow :=
      { ID := workflowID, Name := req.Name, DeviceID := req.DeviceID,
        SampleBarcodes := req.SampleBarcodes, Steps := req.Steps,
        Status := StatusCreated, CreatedAt := now,
        StartedAt := "", CompletedAt := "" }
    (201, some w, putKV ws workflowID w)

/-- Outcome of an outbound `http.Post` from the workflow service:
`transportErr` is `err != nil`; `resp code` is a response with that HTTP
status code. -/
inductive DeviceCallResult : Type
  | transportErr
  | resp (code : Nat)
deriving Repr, DecidableEq

/-- `startWorkflowHandler` (`main.go` lines 231-301) with the outcome of the
booking POST as a parameter.  Guards in source order: 404 unknown id, 400
when status ≠ created, 500 on transport failure, propagated non-200 status
on booking rejection; only on a 200 booking response does it commit
`status = running, started_at = now` through `updateWorkflow`. -/
def startWorkflowHandler (ws : Collection) (workflowID now : String)
    (r : DeviceCallResult) : Nat × String × Collection :=
  match getWorkflow ws workflowID with
  | none => (404, "Workflow not found", ws)
  | some w =>
    if w.Status ≠ StatusCreated then
      (400, "Workflow already started or completed", ws)
    else
      match r with
      | DeviceCallResult.transportErr =>
        (500, "Failed to communicate with device service", ws)
      | DeviceCallResult.resp code =>
        if code ≠ 200 then (code, "Failed to book device", ws)
        else
          (200, "",
            (updateWorkflow ws workflowID
              { status := some StatusRunning, started_at := some now }).2)

/-- `completeWorkflowHandler` (`main.go` lines 303-372) with the outcome of
the release POST as a parameter. -/
def completeWorkflowHandler (ws : Collection) (workflowID now : String)
    (r : DeviceCallResult) : Nat × String × Collection :=
  match getWorkflow ws workflowID with
  | none => (404, "Workflow not found", ws)
  | some w =>
    if w.Status ≠ StatusRunning then (400, "Workflow is not running", ws)
    else
      match r with
      | DeviceCallResult.transportErr =>
        (500, "Failed to communicate with device service", ws)
      | DeviceCallResult.resp code =>
        if code ≠ 200 then (code, "Failed to release device", ws)
        else
          (200, "",
            (updateWorkflow ws workflowID
              { status := some StatusCompleted, completed_at := some now }).2)

/-- Go slice indexing `xs[i]` with an `int` index: `none` models the runtime
panic on an out-of-bounds access (index negative or ≥ length). -/
def sliceIndex (xs : List String) (i : Int) : Option String :=
  if 0 ≤ i ∧ i < (xs.length : Int) then xs.get? i.toNat else none

/-- `executeStepHandler` (`main.go` lines 374-444) with the outcome of the
execute POST as a parameter.  `stepIndex = none` models a request body that
fails to bind, which the source replaces by index 0.  The source checks the
status first, then only `StepIndex >= len(steps)`, and then evaluates
`steps[req.StepIndex]`; a `none` overall result is the runtime panic caused
by a negative index reaching that access. -/
def executeStepHandler (ws : Collection) (workflowID : String)
    (stepIndex : Option Int) (r : DeviceCallResult) :
    Option (Nat × String × Collection) :=
  match getWorkflow ws workflowID with
  | none => some (404, "Workflow not found", ws)
  | some w =>
    if w.Status ≠ StatusRunning then some (400, "Workflow is not running", ws)
    else
      if stepIndex.getD 0 ≥ (w.Steps.length : Int) then
        some (400, "Invalid step index", ws)
      else
        match sliceIndex w.Steps (stepIndex.getD 0) with
        | none => none
        | some _step =>
          match r with
          | DeviceCallResult.transportErr =>
            some (500, "Failed to communicate with device service", ws)
          | DeviceCallResult.resp code =>
            if code ≠ 200 then some (code, "Failed to execute step", ws)
            else some (200, "", ws)

/-! ## Device service (second file inside `workflow-service/main.go`) -/

/-- The `Device` struct.  The Go field `Type` is a Lean keyword and is
renamed `DType`. -/
structure Device : Type where
  ID           : String
  Name         : String
  DType        : String
  Status       : String
  Capabilities : List String
  WorkflowID   : String := ""
deriving Repr, DecidableEq

/-- The static `DEVICES` table of simulated lab devices. -/
def DEVICES : List (String × Device) :=
  [("liquid-handler-1",
    { ID := "liquid-handler-1", Name := "Liquid Handler Alpha",
      DType := "liquid_handler", Status := "available",
      Capabilities := ["pipette", "dispense", "aspirate"] }),
   ("incubator-1",
    { ID := "incubator-1", Name := "Incubator Beta",
      DType := "incubator", Status := "available",
      Capabilities := ["heat", "cool", "shake"] }),
   ("plate-reader-1",
    { ID := "plate-reader-1", Name := "Plate Reader Gamma",
      DType := "plate_reader", Status := "available",
      Capabilities := ["absorbance", "fluorescence"] })]

/-- The device service's Redis keys: `device:{id}:status` and
`device:{id}:workflow`, each modelled as its own key-value table (absence of
a key is `none`, i.e. `redis.Nil`). -/
structure DeviceStore : Type where
  statusKeys   : List (String × String)
  workflowKeys : List (String × String)
deriving Repr, DecidableEq

/-- `getDeviceStatus`: the cached Redis status if present, else the static
default from `DEVICES`, else `"unknown"`. -/
def getDeviceStatus (st : DeviceStore) (deviceID : String) : String :=
  match lookupKV st.statusKeys deviceID with
  | some cached => cached
  | none =>
    match lookupKV DEVICES deviceID with
    | some d => d.Status
    | none => "unknown"

/-- `setDeviceStatus`: always writes the status key; writes the workflow key
when a non-empty workflow id is supplied, otherwise deletes it. -/
def setDeviceStatus (st : DeviceStore) (deviceID status : String)
    (workflowID : Option String) : DeviceStore :=
  let st1 : DeviceStore := { st with statusKeys := putKV st.statusKeys deviceID status }
  match workflowID with
  | some wid =>
    if wid ≠ "" then { st1 with workflowKeys := putKV st1.workflowKeys deviceID wid }
    else { st1 with workflowKeys := delKV st1.workflowKeys deviceID }
  | none => { st1 with workflowKeys := delKV st1.workflowKeys deviceID }

/-- `bookDeviceHandler` (`POST /devices/:device_id/book`): 404 unknown
device, 400 when the required `workflow_id` is absent or empty, 409 when the
device is not available, else books it (status `busy`, reservation tagged
with the workflow id). -/
def bookDeviceHandler (st : DeviceStore) (deviceID : String)
    (workflowID : Option String) : Nat × DeviceStore :=
  if (lookupKV DEVICES deviceID).isNone then (404, st)
  else
    match workflowID with
    | none => (400, st)
    | some wid =>
      if wid = "" then (400, st)
      else if getDeviceStatus st deviceID ≠ "available" then (409, st)
      else (200, setDeviceStatus st deviceID "busy" (some wid))

/-- `releaseDeviceHandler` (`POST /devices/:device_id/release`): 404 unknown
device; a failed bind leaves `WorkflowID = ""` (the field is optional); the
release is refused with 403 only when a reservation is recorded AND the
request carries a non-empty workflow id different from the holder; in every
other case the device is set available and the reservation key deleted. -/
def releaseDeviceHandler (st : DeviceStore) (deviceID : String)
    (workflowID : Option String) : Nat × DeviceStore :=
  if (lookupKV DEVICES deviceID).isNone then (404, st)
  else
    let wid := workflowID.getD ""
    match lookupKV st.workflowKeys deviceID with
    | some currentWorkflow =>
      if currentWorkflow ≠ wid ∧ wid ≠ "" then (403, st)
      else (200, setDeviceStatus st deviceID "available" none)
    | none => (200, setDeviceStatus st deviceID "available" none)

/-- `executeOperationHandler` (`POST /devices/:device_id/execute`): 404
unknown device, 400 when `workflow_id` or `operation` is absent/empty, 403
unless the reservation key exists and names the calling workflow; the
simulated execution changes no device state. -/
def executeOperationHandler (st : DeviceStore) (deviceID : String)
    (workflowID operation : Option String) : Nat × DeviceStore :=
  if (lookupKV DEVICES deviceID).isNone then (404, st)
  else
    match workflowID, operation with
    | some wid, some op =>
      if wid = "" ∨ op = "" then (400, st)
      else
        match lookupKV st.workflowKeys deviceID with
        | some currentWorkflow =>
          if currentWorkflow = wid then (200, st) else (403, st)
        | none => (403, st)
    | _, _ => (400, st)

/-- Splits a character list at every `'/'`; auxiliary for URL path routing. -/
def splitSlash : List Char → List Char → List String
  | [], acc => [String.mk acc.reverse]
  | c :: cs, acc =>
    if c = '/' then String.mk acc.reverse :: splitSlash cs []
    else splitSlash cs (c :: acc)

/-- Path segments of a URL path, as gin's router sees them
(`"/devices/x/book"` ↦ `["", "devices", "x", "book"]`). -/
def pathSegs (path : String) : List String :=
  splitSlash path.data []

/-- A decoded JSON body for the device-service endpoints; `none` models an
absent field. -/
structure DeviceReqBody : Type where
  workflow_id : Option String := none
  operation   : Option String := none
deriving Repr, DecidableEq

/-- The device service's gin POST router: the three registered routes
`/devices/:device_id/book`, `/devices/:device_id/release`,
`/devices/:device_id/execute`; any other path is gin's 404. -/
def deviceServicePost (st : DeviceStore) (path : String) (body : DeviceReqBody) :
    Nat × DeviceStore :=
  match pathSegs path with
  | ["", "devices", deviceID, "book"] => bookDeviceHandler st deviceID body.workflow_id
  | ["", "devices", deviceID, "release"] => releaseDeviceHandler st deviceID body.workflow_id
  | ["", "devices", deviceID, "execute"] =>
    executeOperationHandler st deviceID body.workflow_id body.operation
  | _ => (404, st)

/-- The booking URL path built by `startWorkflowHandler` (`main.go`
line 259): `fmt.Sprintf("%s/device/%s/reserve", deviceAPIURL, deviceID)`,
relative to `deviceAPIURL`. -/
def startBookPath (deviceID : String) : String :=
  "/device/" ++ deviceID ++ "/reserve"

/-- Whether the outbound HTTP transport between the two services works. -/
inductive Transport : Type
  | up
  | down
deriving Repr, DecidableEq

/-- `startWorkflowHandler` composed with the embedded device service: the
booking POST is routed by the path string the source builds.  Result:
status code, error string, persisted workflow collection, device store. -/
def startWorkflowComposed (ws : Collection) (dst : DeviceStore)
    (workflowID now : String) (tr : Transport) :
    Nat × String × Collection × DeviceStore :=
  match getWorkflow ws workflowID with
  | none => (404, "Workflow not found", ws, dst)
  | some w =>
    if w.Status ≠ StatusCreated then
      (400, "Workflow already started or completed", ws, dst)
    else
      match tr with
      | Transport.down =>
        let o := startWorkflowHandler ws workflowID now DeviceCallResult.transportErr
        (o.1, o.2.1, o.2.2, dst)
      | Transport.up =>
        let dr := deviceServicePost dst (startBookPath w.DeviceID)
          { workflow_id := some workflowID }
        let o := startWorkflowHandler ws workflowID now (DeviceCallResult.resp dr.1)
        (o.1, o.2.1, o.2.2, dr.2)

/-! ## Sample service (`sample-service/main.go`) -/

/-- The `Location` struct. -/
structure Location : Type where
  Plate : String
  Well  : String
deriving Repr, DecidableEq

/-- The `Sample` struct.  The Go field `Type` is renamed `SType` (keyword)
and `Location` is renamed `Loc` (it would shadow its own type). -/
structure Sample : Type where
  Barcode   : String
  Name      : String
  SType     : String
  Loc       : Location
  CreatedAt : String
  UpdatedAt : String := ""
deriving Repr, DecidableEq

/-- The whole-collection blob stored under the `samples` Redis key. -/
abbrev SampleStore := List (String × Sample)

/-- The `ValidationResult` struct returned by `POST /samples/validate`. -/
structure ValidationResult : Type where
  Barcode : String
  Exists  : Bool
deriving Repr, DecidableEq

/-- The result-building loop of `validateSamplesHandler` (`main.go`
lines 263-273): the i-th result pairs the i-th requested barcode with
whether the stored collection contains it. -/
def validateSamples (samples : SampleStore) (barcodes : List String) :
    List ValidationResult :=
  barcodes.map fun b => { Barcode := b, Exists := (lookupKV samples b).isSome }

/-- `validateSamplesHandler`: 400 when the required `barcodes` field fails to
bind (`none`), else 200 with the pointwise results; the handler never calls
`saveSamples`, so the store passes through unchanged. -/
def validateSamplesHandler (samples : SampleStore)
    (barcodes : Option (List String)) :
    Nat × List ValidationResult × SampleStore :=
  match barcodes with
  | none => (400, [], samples)
  | some bs => (200, validateSamples samples bs, samples)

/-! ## Invariants and reachability (claim C6) -/

/-- Timestamp/status invariant of a single workflow record: `started_at` is
set iff the status is `running` or `completed`; `completed_at` is set iff
the status is `completed`. -/
def WfInv (w : Workflow) : Prop :=
  (w.StartedAt ≠ "" ↔ (w.Status = StatusRunning ∨ w.Status = StatusCompleted)) ∧
  (w.CompletedAt ≠ "" ↔ w.Status = StatusCompleted)

/-- The invariant, over every record of a collection. -/
def CollInv (ws : Collection) : Prop :=
  ∀ id w, getWorkflow ws id = some w → WfInv w

/-- Collections reachable from the empty store by any sequence of Create,
Start, Complete and ExecuteStep operations, with arbitrary device-call
outcomes.  The `now ≠ ""` hypotheses record that
`time.Now().UTC().Format(time.RFC3339)` never yields the empty string. -/
inductive Reachable : Collection → Prop
  | init : Reachable []
  | create (ws : Collection) (wid : String) (req : CreateWorkflowRequest)
      (now : String) :
      Reachable ws → Reachable (createWorkflowHandler ws wid req now).2.2
  | start (ws : Collection) (wid now : String) (r : DeviceCallResult) :
      now ≠ "" → Reachable ws →
      Reachable (startWorkflowHandler ws wid now r).2.2
  | complete (ws : Collection) (wid now : String) (r : DeviceCallResult) :
      now ≠ "" → Reachable ws →
      Reachable (completeWorkflowHandler ws wid now r).2.2
  | execStep (ws : Collection) (wid : String) (idx : Option Int)
      (r : DeviceCallResult) (o : Nat × String × Collection) :
      Reachable ws → executeStepHandler ws wid idx r = some o →
      Reachable o.2.2

/-! ## Concrete fixtures used by counterexamples and witnesses -/

/-- A workflow record in status `created`, bound to `liquid-handler-1`. -/
def wCreated : Workflow :=
  { ID := "wf-1", Name := "PCR Run", DeviceID := "liquid-handler-1",
    SampleBarcodes := [], Steps := ["pipette", "heat"],
    Status := StatusCreated, CreatedAt := "2025-01-01T00:00:00Z",
    StartedAt := "", CompletedAt := "" }

/-- A collection holding only `wCreated`. -/
def wsCreated : Collection := [("wf-1", wCreated)]

/-- A workflow record in status `running` with a single step. -/
def wRunning : Workflow :=
  { ID := "wf-1", Name := "PCR Run", DeviceID := "liquid-handler-1",
    SampleBarcodes := [], Steps := ["pipette"],
    Status := StatusRunning, CreatedAt := "2025-01-01T00:00:00Z",
    StartedAt := "2025-01-01T00:01:00Z", CompletedAt := "" }

/-- A collection holding only `wRunning`. -/
def wsRunning : Collection := [("wf-1", wRunning)]

/-- An empty device store: every device available, no reservations. -/
def dstFresh : DeviceStore := { statusKeys := [], workflowKeys := [] }

/-- A device store where `liquid-handler-1` is busy, reserved by `wf-1`. -/
def dstBooked : DeviceStore :=
  { statusKeys := [("liquid-handler-1", "busy")],
    workflowKeys := [("liquid-handler-1", "wf-1")] }

/-- A device store where `incubator-1` is busy, reserved by `wf-9`. -/
def dstBooked9 : DeviceStore :=
  { statusKeys := [("incubator-1", "busy")],
    workflowKeys := [("incubator-1", "wf-9")] }

/-! ## Generic lemmas about the association-list map operations -/

theorem lookupKV_putKV {β : Type} (l : List (String × β)) (k : String) (v : β)
    (q : String) :
    lookupKV (putKV l k v) q = if k = q then some v else lookupKV l q := by
  induction l with
  | nil =>
    by_cases h : k = q <;> simp [putKV, lookupKV, h]
  | cons hd tl ih =>
    obtain ⟨a, b⟩ := hd
    by_cases hak : a = k
    · subst hak
      by_cases haq : a = q <;> simp [putKV, lookupKV, haq]
    · by_cases haq : a = q
      · subst haq
        have hkq : ¬(k = a) := fun h => hak h.symm
        simp [putKV, lookupKV, hak, hkq]
      · simp [putKV, lookupKV, hak, haq, ih]

theorem lookupKV_eq_none {β : Type} (l : List (String × β)) (q : String)
    (h : q ∉ l.map Prod.fst) : lookupKV l q = none := by
  induction l with
  | nil => rfl
  | cons hd tl ih =>
    obtain ⟨a, b⟩ := hd
    simp only [List.map_cons, List.mem_cons] at h
    push_neg at h
    have haq : ¬(a = q) := fun he => h.1 he.symm
    simp [lookupKV, haq, ih h.2]

theorem lookupKV_delKV_self {β : Type} (l : List (String × β)) (q : String)
    (hnd : (l.map Prod.fst).Nodup) : lookupKV (delKV l q) q = none := by
  induction l with
  | nil => rfl
  | cons hd tl ih =>
    obtain ⟨a, b⟩ := hd
    simp only [List.map_cons, List.nodup_cons] at hnd
    by_cases haq : a = q
    · subst haq
      simpa [delKV] using lookupKV_eq_none tl a hnd.1
    · simp [delKV, lookupKV, haq, ih hnd.2]

/-! ## Helper lemmas about the handlers -/

/-- `executeStepHandler` threads the workflow collection through unchanged:
the source never calls `updateWorkflow` or `saveWorkflows`. -/
theorem executeStep_ws_unchanged (ws : Collection) (wid : String)
    (idx : Option Int) (r : DeviceCallResult) (o : Nat × String × Collection)
    (h : executeStepHandler ws wid idx r = some o) : o.2.2 = ws := by
  unfold executeStepHandler at h
  split at h
  · cases h; rfl
  · split at h
    · cases h; rfl
    · split at h
      · cases h; rfl
      · split at h
        · cases h
        · split at h
          · cases h; rfl
          · split at h
            · cases h; rfl
            · cases h; rfl

/-! ## Claim theorems -/

/-- C1 (code bug evidence).  With workflow `wf-1` persisted in status
`created` and bound to the existing, available device `liquid-handler-1`
(the device service itself would grant the booking: a direct call to its
book handler returns 200), Start does not reach the booking endpoint: the
source builds the path `/device/{id}/reserve` (its own comment says the
endpoint should be `/book`), no device-service route matches it, the POST
answers 404, Start propagates the 404 and the stored workflow stays in
status `created` instead of becoming `running`. -/
theorem startWorkflow_reserve_endpoint_bug :
    (bookDeviceHandler dstFresh "liquid-handler-1" (some "wf-1")).1 = 200 ∧
    startBookPath "liquid-handler-1" = "/device/liquid-handler-1/reserve" ∧
    (deviceServicePost dstFresh (startBookPath "liquid-handler-1")
      { workflow_id := some "wf-1" }).1 = 404 ∧
    (startWorkflowComposed wsCreated dstFresh "wf-1" "2025-01-02T00:00:00Z"
      Transport.up).1 = 404 ∧
    (getWorkflow (startWorkflowComposed wsCreated dstFresh "wf-1"
      "2025-01-02T00:00:00Z" Transport.up).2.2.1 "wf-1").map Workflow.Status
      = some StatusCreated := by
  decide

/-- C3 (code bug evidence).  Workflow `wf-1` is running with one step, and
the request carries `step_index = -1`, which is outside `[0, len(steps))`.
The source's only guard is `StepIndex >= len(steps)`, which `-1` passes, so
`steps[-1]` is evaluated: an out-of-bounds slice access (runtime panic,
modelled as `none`) instead of the claimed `IndexError` failure. -/
theorem executeStep_negative_index_oob :
    (getWorkflow wsRunning "wf-1").map Workflow.Status = some StatusRunning ∧
    ((-1 : Int) < 0 ∨ (-1 : Int) ≥ ((wRunning.Steps.length : Int))) ∧
    executeStepHandler wsRunning "wf-1" (some (-1)) (DeviceCallResult.resp 200)
      = none := by
  decide

/-- C4 (counterexample).  Workflow `wf-1` exists in status `created` with
one step and the request's `step_index = 5` is ≥ `len(steps) = 1`, yet
ExecuteStep fails with the InvalidStateError body `"Workflow is not
running"`, not with the IndexError body `"Invalid step index"`: the claim
"fails with IndexError regardless of workflow status" is false. -/
theorem executeStep_nonrunning_index_counterexample :
    ((5 : Int) ≥ ((wCreated.Steps.length : Int))) ∧
    executeStepHandler wsCreated "wf-1" (some 5) (DeviceCallResult.resp 200)
      = some (400, "Workflow is not running", wsCreated) ∧
    ("Workflow is not running" : String) ≠ "Invalid step index" := by
  decide

/-- C4 (amended).  For every existing workflow and every `step_index` ≥
`len(steps)`, ExecuteStep always fails with HTTP 400: with the IndexError
body `"Invalid step index"` when the workflow is running, and with the
InvalidStateError body `"Workflow is not running"` otherwise, because the
status check precedes the index check. -/
theorem executeStep_index_guard (ws : Collection) (wid : String)
    (w : Workflow) (idx : Int) (r : DeviceCallResult)
    (hw : getWorkflow ws wid = some w)
    (hidx : (w.Steps.length : Int) ≤ idx) :
    (w.Status = StatusRunning →
      executeStepHandler ws wid (some idx) r
        = some (400, "Invalid step index", ws)) ∧
    (w.Status ≠ StatusRunning →
      executeStepHandler ws wid (some idx) r
        = some (400, "Workflow is not running", ws)) := by
  constructor
  · intro hs
    have hns : ¬(w.Status ≠ StatusRunning) := fun hne => hne hs
    simp only [executeStepHandler, hw]
    rw [if_neg hns]
    rw [if_pos (show (some idx).getD 0 ≥ (w.Steps.length : Int) from hidx)]
  · intro hs
    simp only [executeStepHandler, hw]
    rw [if_pos hs]

/-- C4 witness: the amended theorem applied to the concrete running workflow
`wf-1` with `len(steps) = 1` and `step_index = 5`. -/
theorem executeStep_index_guard_witness :
    getWorkflow wsRunning "wf-1" = some wRunning ∧
    ((wRunning.Steps.length : Int) ≤ 5) ∧
    ((wRunning.Status = StatusRunning →
      executeStepHandler wsRunning "wf-1" (some 5) (DeviceCallResult.resp 200)
        = some (400, "Invalid step index", wsRunning)) ∧
     (wRunning.Status ≠ StatusRunning →
      executeStepHandler wsRunning "wf-1" (some 5) (DeviceCallResult.resp 200)
        = some (400, "Workflow is not running", wsRunning))) :=
  ⟨by decide, by decide,
    executeStep_index_guard wsRunning "wf-1" wRunning 5
      (DeviceCallResult.resp 200) (by decide) (by decide)⟩

/-- C9.  ExecuteStep never writes to the workflow collection: whatever the
request and whatever the device call's outcome, whenever the handler
terminates (succeeds or fails), the stored collection it passes on is
exactly the one it read. -/
theorem executeStep_never_writes (ws : Collection) (wid : String)
    (idx : Option Int) (r : DeviceCallResult) (o : Nat × String × Collection)
    (h : executeStepHandler ws wid idx r = some o) : o.2.2 = ws :=
  executeStep_ws_unchanged ws wid idx r o h

/-- C9 witness: a successful step execution on the running workflow `wf-1`
leaves the collection `wsRunning` unchanged. -/
theorem executeStep_never_writes_witness :
    executeStepHandler wsRunning "wf-1" (some 0) (DeviceCallResult.resp 200)
      = some (200, "", wsRunning) ∧
    ((200, "", wsRunning) : Nat × String × Collection).2.2 = wsRunning :=
  ⟨by decide,
    executeStep_never_writes wsRunning "wf-1" (some 0)
      (DeviceCallResult.resp 200) (200, "", wsRunning) (by decide)⟩

/-- C10.  For every stored sample collection and every bound barcode list,
sample validation returns 200 with a result list of exactly the same length
in the same order: the i-th result pairs the i-th requested barcode with a
flag that is true iff a sample with that barcode is in the stored
collection, and the stored collection itself passes through unmodified. -/
theorem validateSamples_pointwise (samples : SampleStore)
    (barcodes : List String) :
    (validateSamplesHandler samples (some barcodes)).1 = 200 ∧
    (validateSamplesHandler samples (some barcodes)).2.2 = samples ∧
    (validateSamplesHandler samples (some barcodes)).2.1.length
      = barcodes.length ∧
    ∀ i : Nat,
      (validateSamplesHandler samples (some barcodes)).2.1[i]?
        = barcodes[i]?.map
            (fun b => { Barcode := b, Exists := (lookupKV samples b).isSome }) := by
  refine ⟨rfl, rfl, ?_, ?_⟩
  · simp [validateSamplesHandler, validateSamples]
  · intro i
    simp [validateSamplesHandler, validateSamples, List.getElem?_map]

/-- C2 (counterexample).  Device `liquid-handler-1` is reserved by workflow
`wf-1`, and a release request arrives whose workflow identifier is the empty
string (which is what the handler also uses when the field is absent) — a
caller different from the holder.  The claim requires rejection with the
reservation intact; the handler instead honors the release: it answers 200,
sets the device available and deletes the reservation. -/
theorem releaseDevice_unauthorized_release_honored :
    lookupKV dstBooked.workflowKeys "liquid-handler-1" = some "wf-1" ∧
    ("" : String) ≠ "wf-1" ∧
    (releaseDeviceHandler dstBooked "liquid-handler-1" (some "")).1 = 200 ∧
    lookupKV (releaseDeviceHandler dstBooked "liquid-handler-1"
      (some "")).2.workflowKeys "liquid-handler-1" = none ∧
    getDeviceStatus (releaseDeviceHandler dstBooked "liquid-handler-1"
      (some "")).2 "liquid-handler-1" = "available" := by
  decide

/-- C2 (amended).  For an existing device whose reservation is held by
workflow `h` (reservation keys forming a well-formed map, i.e. no duplicate
keys): a release request carrying a NON-EMPTY workflow identifier different
from `h` is rejected with 403 and leaves the whole device store unchanged;
a request whose identifier equals `h` — or is empty/absent — is honored:
200, reservation deleted, device status set to `available`. -/
theorem releaseDevice_holder_guard (st : DeviceStore) (d wid h : String)
    (hdev : (lookupKV DEVICES d).isSome = true)
    (hnd : (st.workflowKeys.map Prod.fst).Nodup)
    (hres : lookupKV st.workflowKeys d = some h) :
    (wid ≠ h → wid ≠ "" → releaseDeviceHandler st d (some wid) = (403, st)) ∧
    (wid = h ∨ wid = "" →
      (releaseDeviceHandler st d (some wid)).1 = 200 ∧
      lookupKV (releaseDeviceHandler st d (some wid)).2.workflowKeys d = none ∧
      getDeviceStatus (releaseDeviceHandler st d (some wid)).2 d
        = "available") := by
  have hdev' : ¬((lookupKV DEVICES d).isNone = true) := by
    cases hx : lookupKV DEVICES d with
    | none => rw [hx] at hdev; cases hdev
    | some v => simp [Option.isNone]
  constructor
  · intro hne hemp
    simp only [releaseDeviceHandler]
    rw [if_neg hdev']
    simp only [Option.getD_some, hres]
    rw [if_pos ⟨fun he => hne he.symm, hemp⟩]
  · intro hok
    have hcond : ¬(h ≠ wid ∧ wid ≠ "") := by
      rcases hok with hok | hok
      · intro hc
        exact hc.1 hok.symm
      · intro hc
        exact hc.2 hok
    simp only [releaseDeviceHandler]
    rw [if_neg hdev']
    simp only [Option.getD_some, hres]
    rw [if_neg hcond]
    refine ⟨rfl, ?_, ?_⟩
    · simpa [setDeviceStatus] using lookupKV_delKV_self st.workflowKeys d hnd
    · simp [setDeviceStatus, getDeviceStatus, lookupKV_putKV]

/-- C2 witness: the amended theorem applied to the device store where
`incubator-1` is reserved by `wf-9` and the caller is `wf-2`. -/
theorem releaseDevice_holder_guard_witness :
    (lookupKV DEVICES "incubator-1").isSome = true ∧
    (dstBooked9.workflowKeys.map Prod.fst).Nodup ∧
    lookupKV dstBooked9.workflowKeys "incubator-1" = some "wf-9" ∧
    (("wf-2" : String) ≠ "wf-9" → ("wf-2" : String) ≠ "" →
      releaseDeviceHandler dstBooked9 "incubator-1" (some "wf-2")
        = (403, dstBooked9)) ∧
    (("wf-2" : String) = "wf-9" ∨ ("wf-2" : String) = "" →
      (releaseDeviceHandler dstBooked9 "incubator-1" (some "wf-2")).1 = 200 ∧
      lookupKV (releaseDeviceHandler dstBooked9 "incubator-1"
        (some "wf-2")).2.workflowKeys "incubator-1" = none ∧
      getDeviceStatus (releaseDeviceHandler dstBooked9 "incubator-1"
        (some "wf-2")).2 "incubator-1" = "available") := by
  have main := releaseDevice_holder_guard dstBooked9 "incubator-1" "wf-2"
    "wf-9" (by decide) (by decide) (by decide)
  exact ⟨by decide, by decide, by decide, main.1, main.2⟩

/-- C5.  Whenever Start fails — 404 unknown workflow, 400 InvalidStateError
(status ≠ created), 500 DependencyError (transport failure), or a propagated
non-200 booking rejection — the persisted workflow collection, and hence the
stored record, is exactly the one that was read: no partial commit. -/
theorem startWorkflow_failure_frame (ws : Collection) (wid now : String)
    (r : DeviceCallResult)
    (h : (startWorkflowHandler ws wid now r).1 ≠ 200) :
    (startWorkflowHandler ws wid now r).2.2 = ws := by
  cases hg : getWorkflow ws wid with
  | none => simp [startWorkflowHandler, hg]
  | some w =>
    by_cases hs : w.Status ≠ StatusCreated
    · simp [startWorkflowHandler, hg, hs]
    · cases r with
      | transportErr => simp [startWorkflowHandler, hg, hs]
      | resp code =>
        by_cases hc : code = 200
        · subst hc
          simp [startWorkflowHandler, hg, hs] at h
        · simp [startWorkflowHandler, hg, hs, hc]

/-- C5 witness: Start on the already-running workflow `wf-1` fails (400) and
the stored collection is unchanged. -/
theorem startWorkflow_failure_frame_witness :
    (startWorkflowHandler wsRunning "wf-1" "2025-01-02T00:00:00Z"
      (DeviceCallResult.resp 200)).1 ≠ 200 ∧
    (startWorkflowHandler wsRunning "wf-1" "2025-01-02T00:00:00Z"
      (DeviceCallResult.resp 200)).2.2 = wsRunning :=
  ⟨by decide,
    startWorkflow_failure_frame wsRunning "wf-1" "2025-01-02T00:00:00Z"
      (DeviceCallResult.resp 200) (by decide)⟩

/-- C7.  Create with a non-empty name and device id, and a generated
identifier not already present (the contract of `uuid.New()`): the handler
answers 201, the returned record is also the persisted one, it has status
`created`, no `started_at`, no `completed_at`, carries the fresh identifier,
and that identifier differs from the key of every previously stored
workflow. -/
theorem createWorkflow_fresh_created (ws : Collection) (wid : String)
    (req : CreateWorkflowRequest) (now : String)
    (hname : req.Name ≠ "") (hdev : req.DeviceID ≠ "")
    (hfresh : getWorkflow ws wid = none) :
    (createWorkflowHandler ws wid req now).1 = 201 ∧
    ∃ w : Workflow,
      (createWorkflowHandler ws wid req now).2.1 = some w ∧
      getWorkflow (createWorkflowHandler ws wid req now).2.2 wid = some w ∧
      w.ID = wid ∧ w.Status = StatusCreated ∧
      w.StartedAt = "" ∧ w.CompletedAt = "" ∧
      ∀ id, (getWorkflow ws id).isSome → wid ≠ id := by
  have hcond : ¬(req.Name = "" ∨ req.DeviceID = "") := by
    rintro (hx | hx)
    · exact hname hx
    · exact hdev hx
  refine ⟨by simp [createWorkflowHandler, hcond], ?_⟩
  refine ⟨{ ID := wid, Name := req.Name, DeviceID := req.DeviceID,
            SampleBarcodes := req.SampleBarcodes, Steps := req.Steps,
            Status := StatusCreated, CreatedAt := now,
            StartedAt := "", CompletedAt := "" },
          ?_, ?_, rfl, rfl, rfl, rfl, ?_⟩
  · simp [createWorkflowHandler, hcond]
  · simp [createWorkflowHandler, hcond, getWorkflow, lookupKV_putKV]
  · intro id hid heq
    subst heq
    rw [hfresh] at hid
    simp at hid

/-- C7 witness: creating `wf-2` on top of the collection that already holds
`wf-1`. -/
theorem createWorkflow_fresh_created_witness :
    (("PCR Run 2" : String) ≠ "") ∧ (("incubator-1" : String) ≠ "") ∧
    getWorkflow wsRunning "wf-2" = none ∧
    ((createWorkflowHandler wsRunning "wf-2"
        { Name := "PCR Run 2", DeviceID := "incubator-1",
          SampleBarcodes := [], Steps := ["heat"] }
        "2025-01-03T00:00:00Z").1 = 201 ∧
     ∃ w : Workflow,
      (createWorkflowHandler wsRunning "wf-2"
        { Name := "PCR Run 2", DeviceID := "incubator-1",
          SampleBarcodes := [], Steps := ["heat"] }
        "2025-01-03T00:00:00Z").2.1 = some w ∧
      getWorkflow (createWorkflowHandler wsRunning "wf-2"
        { Name := "PCR Run 2", DeviceID := "incubator-1",
          SampleBarcodes := [], Steps := ["heat"] }
        "2025-01-03T00:00:00Z").2.2 "wf-2" = some w ∧
      w.ID = "wf-2" ∧ w.Status = StatusCreated ∧
      w.StartedAt = "" ∧ w.CompletedAt = "" ∧
      ∀ id, (getWorkflow wsRunning id).isSome → ("wf-2" : String) ≠ id) :=
  ⟨by decide, by decide, by decide,
    createWorkflow_fresh_created wsRunning "wf-2"
      { Name := "PCR Run 2", DeviceID := "incubator-1",
        SampleBarcodes := [], Steps := ["heat"] }
      "2025-01-03T00:00:00Z" (by decide) (by decide) (by decide)⟩

/-- The merge loop never touches `ID`, `DeviceID`, `SampleBarcodes`,
`Steps` or `CreatedAt`: no branch of `updateWorkflow` assigns them. -/
theorem applyUpdates_const (w : Workflow) (u : WfUpdate) :
    (applyUpdates w u).ID = w.ID ∧
    (applyUpdates w u).DeviceID = w.DeviceID ∧
    (applyUpdates w u).SampleBarcodes = w.SampleBarcodes ∧
    (applyUpdates w u).Steps = w.Steps ∧
    (applyUpdates w u).CreatedAt = w.CreatedAt := by
  rcases u with ⟨un, us, ust, uc⟩
  cases un <;> cases us <;> cases ust <;> cases uc <;>
    exact ⟨rfl, rfl, rfl, rfl, rfl⟩

theorem applyUpdates_name_none (w : Workflow) (u : WfUpdate)
    (h : u.name = none) : (applyUpdates w u).Name = w.Name := by
  rcases u with ⟨un, us, ust, uc⟩
  cases un with
  | some x => simp at h
  | none => cases us <;> cases ust <;> cases uc <;> rfl

theorem applyUpdates_status_none (w : Workflow) (u : WfUpdate)
    (h : u.status = none) : (applyUpdates w u).Status = w.Status := by
  rcases u with ⟨un, us, ust, uc⟩
  cases us with
  | some x => simp at h
  | none => cases un <;> cases ust <;> cases uc <;> rfl

theorem applyUpdates_startedAt_none (w : Workflow) (u : WfUpdate)
    (h : u.started_at = none) : (applyUpdates w u).StartedAt = w.StartedAt := by
  rcases u with ⟨un, us, ust, uc⟩
  cases ust with
  | some x => simp at h
  | none => cases un <;> cases us <;> cases uc <;> rfl

theorem applyUpdates_completedAt_none (w : Workflow) (u : WfUpdate)
    (h : u.completed_at = none) :
    (applyUpdates w u).CompletedAt = w.CompletedAt := by
  rcases u with ⟨un, us, ust, uc⟩
  cases uc with
  | some x => simp at h
  | none => cases un <;> cases us <;> cases ust <;> rfl

/-- C8.  For every existing workflow and every partial update, ApplyUpdate
returns and persists the merged record; `id`, `device_id`,
`sample_barcodes`, `steps` and `created_at` are never changed; each field
absent from the update keeps its old value; and the stored record of every
other workflow id is untouched. -/
theorem updateWorkflow_unmentioned_frame (ws : Collection) (wid : String)
    (u : WfUpdate) (w : Workflow) (hw : getWorkflow ws wid = some w) :
    (updateWorkflow ws wid u).1 = some (applyUpdates w u) ∧
    getWorkflow (updateWorkflow ws wid u).2 wid = some (applyUpdates w u) ∧
    (applyUpdates w u).ID = w.ID ∧
    (applyUpdates w u).DeviceID = w.DeviceID ∧
    (applyUpdates w u).SampleBarcodes = w.SampleBarcodes ∧
    (applyUpdates w u).Steps = w.Steps ∧
    (applyUpdates w u).CreatedAt = w.CreatedAt ∧
    (u.name = none → (applyUpdates w u).Name = w.Name) ∧
    (u.status = none → (applyUpdates w u).Status = w.Status) ∧
    (u.started_at = none → (applyUpdates w u).StartedAt = w.StartedAt) ∧
    (u.completed_at = none → (applyUpdates w u).CompletedAt = w.CompletedAt) ∧
    (∀ id, id ≠ wid →
      getWorkflow (updateWorkflow ws wid u).2 id = getWorkflow ws id) := by
  have h1 : updateWorkflow ws wid u
      = (some (applyUpdates w u), putKV ws wid (applyUpdates w u)) := by
    simp [updateWorkflow, hw]
  obtain ⟨hA, hB, hC, hD, hE⟩ := applyUpdates_const w u
  refine ⟨by rw [h1], ?_, hA, hB, hC, hD, hE,
    applyUpdates_name_none w u, applyUpdates_status_none w u,
    applyUpdates_startedAt_none w u, applyUpdates_completedAt_none w u, ?_⟩
  · rw [h1]
    simp [getWorkflow, lookupKV_putKV]
  · intro id hid
    rw [h1]
    have hwid : ¬(wid = id) := fun he => hid he.symm
    simp [getWorkflow, lookupKV_putKV, hwid]

/-- C8 witness: a status-only update of the stored running workflow. -/
theorem updateWorkflow_unmentioned_frame_witness :
    getWorkflow wsRunning "wf-1" = some wRunning ∧
    ((updateWorkflow wsRunning "wf-1"
        ({ status := some StatusPaused } : WfUpdate)).1
      = some (applyUpdates wRunning ({ status := some StatusPaused } : WfUpdate)) ∧
    getWorkflow (updateWorkflow wsRunning "wf-1"
        ({ status := some StatusPaused } : WfUpdate)).2 "wf-1"
      = some (applyUpdates wRunning ({ status := some StatusPaused } : WfUpdate)) ∧
    (applyUpdates wRunning ({ status := some StatusPaused } : WfUpdate)).ID
      = wRunning.ID ∧
    (applyUpdates wRunning ({ status := some StatusPaused } : WfUpdate)).DeviceID
      = wRunning.DeviceID ∧
    (applyUpdates wRunning ({ status := some StatusPaused } : WfUpdate)).SampleBarcodes
      = wRunning.SampleBarcodes ∧
    (applyUpdates wRunning ({ status := some StatusPaused } : WfUpdate)).Steps
      = wRunning.Steps ∧
    (applyUpdates wRunning ({ status := some StatusPaused } : WfUpdate)).CreatedAt
      = wRunning.CreatedAt ∧
    (({ status := some StatusPaused } : WfUpdate).name = none →
      (applyUpdates wRunning ({ status := some StatusPaused } : WfUpdate)).Name
        = wRunning.Name) ∧
    (({ status := some StatusPaused } : WfUpdate).status = none →
      (applyUpdates wRunning ({ status := some StatusPaused } : WfUpdate)).Status
        = wRunning.Status) ∧
    (({ status := some StatusPaused } : WfUpdate).started_at = none →
      (applyUpdates wRunning ({ status := some StatusPaused } : WfUpdate)).StartedAt
        = wRunning.StartedAt) ∧
    (({ status := some StatusPaused } : WfUpdate).completed_at = none →
      (applyUpdates wRunning ({ status := some StatusPaused } : WfUpdate)).CompletedAt
        = wRunning.CompletedAt) ∧
    (∀ id, id ≠ "wf-1" →
      getWorkflow (updateWorkflow wsRunning "wf-1"
        ({ status := some StatusPaused } : WfUpdate)).2 id
        = getWorkflow wsRunning id)) :=
  ⟨by decide,
    updateWorkflow_unmentioned_frame wsRunning "wf-1"
      ({ status := some StatusPaused } : WfUpdate) wRunning (by decide)⟩

/-- Upserting a record that satisfies the timestamp invariant preserves the
collection-wide invariant. -/
theorem collInv_putKV (ws : Collection) (wid : String) (w : Workflow)
    (h : CollInv ws) (hw : WfInv w) : CollInv (putKV ws wid w) := by
  intro id w0 h0
  unfold getWorkflow at h0
  rw [lookupKV_putKV] at h0
  by_cases hid : wid = id
  · rw [if_pos hid] at h0
    cases h0
    exact hw
  · rw [if_neg hid] at h0
    exact h id w0 h0

/-- Create preserves the invariant: the fresh record is `created` with both
timestamps absent. -/
theorem collInv_create (ws : Collection) (wid : String)
    (req : CreateWorkflowRequest) (now : String) (h : CollInv ws) :
    CollInv (createWorkflowHandler ws wid req now).2.2 := by
  by_cases hv : req.Name = "" ∨ req.DeviceID = ""
  · simpa [createWorkflowHandler, hv] using h
  · have hres : (createWorkflowHandler ws wid req now).2.2
        = putKV ws wid
            { ID := wid, Name := req.Name, DeviceID := req.DeviceID,
              SampleBarcodes := req.SampleBarcodes, Steps := req.Steps,
              Status := StatusCreated, CreatedAt := now,
              StartedAt := "", CompletedAt := "" } := by
      simp [createWorkflowHandler, hv]
    rw [hres]
    exact collInv_putKV ws wid _ h (by simp [WfInv])

/-- Start preserves the invariant: it only commits on a 200 booking
response, from a record in status `created` (hence with both timestamps
absent), setting `running` and a non-empty `started_at`. -/
theorem collInv_start (ws : Collection) (wid now : String)
    (r : DeviceCallResult) (hn : now ≠ "") (h : CollInv ws) :
    CollInv (startWorkflowHandler ws wid now r).2.2 := by
  cases hg : getWorkflow ws wid with
  | none => simpa [startWorkflowHandler, hg] using h
  | some w =>
    by_cases hs : w.Status = StatusCreated
    · cases r with
      | transportErr => simpa [startWorkflowHandler, hg, hs] using h
      | resp code =>
        by_cases hc : code = 200
        · subst hc
          have hres : (startWorkflowHandler ws wid now
              (DeviceCallResult.resp 200)).2.2
              = putKV ws wid (applyUpdates w
                  { status := some StatusRunning, started_at := some now }) := by
            simp [startWorkflowHandler, hg, hs, updateWorkflow]
          rw [hres]
          have happ : applyUpdates w
              { status := some StatusRunning, started_at := some now }
              = { w with Status := StatusRunning, StartedAt := now } := rfl
          rw [happ]
          have hwinv := h wid w hg
          refine collInv_putKV ws wid _ h ⟨⟨fun _ => Or.inl rfl, fun _ => hn⟩, ?_, ?_⟩
          · intro hne
            have h2 := hwinv.2.mp hne
            rw [hs] at h2
            cases h2
          · intro hx
            cases hx
        · simpa [startWorkflowHandler, hg, hs, hc] using h
    · simpa [startWorkflowHandler, hg, hs] using h

/-- Complete preserves the invariant: it only commits on a 200 release
response, from a record in status `running` (hence with `started_at`
present), setting `completed` and a non-empty `completed_at`. -/
theorem collInv_complete (ws : Collection) (wid now : String)
    (r : DeviceCallResult) (hn : now ≠ "") (h : CollInv ws) :
    CollInv (completeWorkflowHandler ws wid now r).2.2 := by
  cases hg : getWorkflow ws wid with
  | none => simpa [completeWorkflowHandler, hg] using h
  | some w =>
    by_cases hs : w.Status = StatusRunning
    · cases r with
      | transportErr => simpa [completeWorkflowHandler, hg, hs] using h
      | resp code =>
        by_cases hc : code = 200
        · subst hc
          have hres : (completeWorkflowHandler ws wid now
              (DeviceCallResult.resp 200)).2.2
              = putKV ws wid (applyUpdates w
                  { status := some StatusCompleted, completed_at := some now }) := by
            simp [completeWorkflowHandler, hg, hs, updateWorkflow]
          rw [hres]
          have happ : applyUpdates w
              { status := some StatusCompleted, completed_at := some now }
              = { w with Status := StatusCompleted, CompletedAt := now } := rfl
          rw [happ]
          have hwinv := h wid w hg
          refine collInv_putKV ws wid _ h
            ⟨⟨fun _ => Or.inr rfl, fun _ => hwinv.1.mpr (Or.inl hs)⟩,
             fun _ => rfl, fun _ => hn⟩
        · simpa [completeWorkflowHandler, hg, hs, hc] using h
    · simpa [completeWorkflowHandler, hg, hs] using h

/-- Every reachable collection satisfies the collection-wide timestamp
invariant. -/
theorem reachable_collInv (ws : Collection) (h : Reachable ws) : CollInv ws := by
  induction h with
  | init =>
    intro id w h0
    simp [getWorkflow, lookupKV] at h0
  | create ws wid req now _ ih => exact collInv_create ws wid req now ih
  | start ws wid now r hn _ ih => exact collInv_start ws wid now r hn ih
  | complete ws wid now r hn _ ih => exact collInv_complete ws wid now r hn ih
  | execStep ws wid idx r o _ he ih =>
    rw [executeStep_ws_unchanged ws wid idx r o he]
    exact ih

/-- C6.  In every collection reachable by any sequence of Create, Start,
Complete and ExecuteStep operations, every stored workflow record has
`started_at` set iff its status is `running` or `completed`, and
`completed_at` set iff its status is `completed`. -/
theorem reachable_timestamp_invariant (ws : Collection) (h : Reachable ws) :
    ∀ id w, getWorkflow ws id = some w →
      ((w.StartedAt ≠ "" ↔
          (w.Status = StatusRunning ∨ w.Status = StatusCompleted)) ∧
       (w.CompletedAt ≠ "" ↔ w.Status = StatusCompleted)) :=
  reachable_collInv ws h

/-- C6 witness: the invariant read off the collection reached by one Create
operation, at the record it stores. -/
theorem reachable_timestamp_invariant_witness :
    ((wCreated.StartedAt ≠ "" ↔
        (wCreated.Status = StatusRunning ∨ wCreated.Status = StatusCompleted)) ∧
     (wCreated.CompletedAt ≠ "" ↔ wCreated.Status = StatusCompleted)) :=
  reachable_timestamp_invariant
    (createWorkflowHandler [] "wf-1"
      { Name := "PCR Run", DeviceID := "liquid-handler-1",
        SampleBarcodes := [], Steps := ["pipette", "heat"] }
      "2025-01-01T00:00:00Z").2.2
    (Reachable.create [] "wf-1"
      { Name := "PCR Run", DeviceID := "liquid-handler-1",
        SampleBarcodes := [], Steps := ["pipette", "heat"] }
      "2025-01-01T00:00:00Z" Reachable.init)
    "wf-1" wCreated (by decide)
